import Mathlib

/-!
# IronClaw: tool-orchestration and sandboxed-execution pipeline, verified

Shallow embedding of the IronClaw gateway pipeline:

* `Json`, `parseJson` — model of `serde_json::Value` and `serde_json::from_str`
  (external library), restricted to the JSON fragment the gateway exchanges
  (null/bool/integer/string/array/object with the standard escapes).
* `ToolRecord`, `Registry.load` — `src/core/src/registry.rs`.
* `Runtime`, `Runtime.run_tool`, `runFuel` — `src/core/src/runtime.rs`; the
  wasmtime fuel metering (external engine) is modelled as one fuel unit per
  guest step.
* `Brain.planRequest`, `Brain.planInterpret` — `src/core/src/llm.rs`.
* `submit_run` — the orchestrator handler in `src/gateway/src/main.rs`; it is
  instrumented with the list of execution-engine invocations so that the
  "engine never invoked" properties are stated about the code path itself.
* `MyTool.run` — the echo guest in `src/tools/src/lib.rs`.
-/

/-- The single-quote character, used in several gateway / guest format strings. -/
def squote : String := (Char.ofNat 39).toString

/-- Left curly brace character. -/
def lbrace : Char := Char.ofNat 123

/-- Right curly brace character. -/
def rbrace : Char := Char.ofNat 125

/-- Model of `serde_json::Value` (numbers restricted to integers; the gateway
never inspects a number). -/
inductive Json where
  | null
  | bool (b : Bool)
  | num (n : Int)
  | str (s : String)
  | arr (elems : List Json)
  | obj (fields : List (String × Json))

/-- Model of `serde_json`'s `Value::default()`, which is `Value::Null`. -/
def Json.default : Json := Json.null

/-- Model of indexing a `serde_json::Value` with a string key (`value["k"]`):
returns the field's value on an object that has the key, `Null` otherwise. -/
def Json.get (j : Json) (k : String) : Json :=
  match j with
  | .obj fields =>
    match fields.find? (fun f => f.1 == k) with
    | some f => f.2
    | none => .null
  | _ => .null

/-- Model of `Value::as_str`: `Some` exactly on JSON strings. -/
def Json.asStr : Json → Option String
  | .str s => some s
  | _ => none

/-- Parse the body of a JSON string literal (after the opening quote) up to the
closing quote, handling the standard short escapes. -/
def parseStrBody : List Char → Option (String × List Char)
  | [] => none
  | c :: cs =>
    if c == '"' then some ("", cs)
    else if c == '\\' then
      match cs with
      | [] => none
      | e :: cs2 =>
        let esc : Option Char :=
          if e == '"' then some '"'
          else if e == '\\' then some '\\'
          else if e == '/' then some '/'
          else if e == 'n' then some '\n'
          else if e == 't' then some '\t'
          else if e == 'r' then some '\r'
          else none
        match esc with
        | none => none
        | some ch =>
          match parseStrBody cs2 with
          | some (rest, rem) => some (ch.toString ++ rest, rem)
          | none => none
    else
      match parseStrBody cs with
      | some (rest, rem) => some (c.toString ++ rest, rem)
      | none => none

/-- Drop leading JSON whitespace. -/
def skipWs : List Char → List Char
  | [] => []
  | c :: cs => if c == ' ' || c == '\n' || c == '\t' || c == '\r' then skipWs cs else c :: cs

/-- Split a leading run of decimal digits from the rest. -/
def takeDigits : List Char → List Char × List Char
  | [] => ([], [])
  | c :: cs =>
    if c.isDigit then
      let p := takeDigits cs
      (c :: p.1, p.2)
    else ([], c :: cs)

/-- Decimal value of a digit list. -/
def digitsToNat (ds : List Char) : Nat :=
  ds.foldl (fun a c => a * 10 + (c.toNat - 48)) 0

mutual

/-- Fuel-indexed recursive-descent JSON value parser. -/
def parseVal : Nat → List Char → Option (Json × List Char)
  | 0, _ => none
  | f + 1, cs =>
    match skipWs cs with
    | [] => none
    | c :: rest =>
      if c == 'n' then
        match rest with
        | 'u' :: 'l' :: 'l' :: r => some (.null, r)
        | _ => none
      else if c == 't' then
        match rest with
        | 'r' :: 'u' :: 'e' :: r => some (.bool true, r)
        | _ => none
      else if c == 'f' then
        match rest with
        | 'a' :: 'l' :: 's' :: 'e' :: r => some (.bool false, r)
        | _ => none
      else if c == '"' then
        match parseStrBody rest with
        | some (s, r) => some (.str s, r)
        | none => none
      else if c == '-' then
        match takeDigits rest with
        | ([], _) => none
        | (ds, r) => some (.num (-(digitsToNat ds : Int)), r)
      else if c.isDigit then
        match takeDigits (c :: rest) with
        | ([], _) => none
        | (ds, r) => some (.num (digitsToNat ds), r)
      else if c == '[' then
        match skipWs rest with
        | ']' :: r => some (.arr [], r)
        | _ =>
          match parseArrItems f rest with
          | some (xs, r) => some (.arr xs, r)
          | none => none
      else if c == lbrace then
        match skipWs rest with
        | c2 :: r =>
          if c2 == rbrace then some (.obj [], r)
          else
            match parseObjItems f rest with
            | some (kvs, r2) => some (.obj kvs, r2)
            | none => none
        | [] => none
      else none

/-- Comma-separated JSON values up to a closing bracket. -/
def parseArrItems : Nat → List Char → Option (List Json × List Char)
  | 0, _ => none
  | f + 1, cs =>
    match parseVal f cs with
    | none => none
    | some (v, r) =>
      match skipWs r with
      | ',' :: r2 =>
        match parseArrItems f r2 with
        | some (vs, r3) => some (v :: vs, r3)
        | none => none
      | ']' :: r2 => some ([v], r2)
      | _ => none

/-- Comma-separated JSON key-value pairs up to a closing brace. -/
def parseObjItems : Nat → List Char → Option (List (String × Json) × List Char)
  | 0, _ => none
  | f + 1, cs =>
    match skipWs cs with
    | '"' :: r =>
      match parseStrBody r with
      | none => none
      | some (k, r2) =>
        match skipWs r2 with
        | ':' :: r3 =>
          match parseVal f r3 with
          | none => none
          | some (v, r4) =>
            match skipWs r4 with
            | ',' :: r5 =>
              match parseObjItems f r5 with
              | some (kvs, r6) => some ((k, v) :: kvs, r6)
              | none => none
            | c :: r5 => if c == rbrace then some ([(k, v)], r5) else none
            | [] => none
        | _ => none
    | _ => none

end

/-- Model of `serde_json::from_str::<Value>`: parse one JSON value and require
that only whitespace remains. -/
def parseJson (s : String) : Option Json :=
  match parseVal (s.length + 1) s.data with
  | some (v, rest) =>
    match skipWs rest with
    | [] => some v
    | _ => none
  | none => none


/-- A registered capability (`ToolRecord` in `src/core/src/registry.rs`). -/
structure ToolRecord where
  name : String
  description : String
  binary_path : String
  handler : String
  parameters : Json

/-- A warning emitted by the registry loader for a record whose binary is
missing (`registry.rs` lines 35-39): a warning only, never a load failure. -/
def missingBinaryWarning (t : ToolRecord) : String :=
  "Tool " ++ squote ++ t.name ++ squote ++ " registered but binary not found at: " ++ t.binary_path

/-- Namespace marker for the registry loader. -/
structure Registry

/-- Model of `Registry::load` (`src/core/src/registry.rs` lines 24-42).
`file_content` is the result of reading `tools/tools.json` (`none` = I/O
failure); `parse` models the derived `serde` deserializer for
`Vec<ToolRecord>` (external library); `exists_at` models
`Path::new(..).exists()`. On success the parsed records are returned verbatim
together with the missing-binary warnings; no other validation is performed. -/
def Registry.load (file_content : Option String)
    (parse : String → Option (List ToolRecord))
    (exists_at : String → Bool) : Except String (List ToolRecord × List String) :=
  match file_content with
  | none => .error "Failed to read registry at tools/tools.json"
  | some content =>
    match parse content with
    | none => .error "registry parse failed"
    | some tools =>
      .ok (tools, (tools.filter (fun t => !(exists_at t.binary_path))).map missingBinaryWarning)

/-- One observable step of a sandboxed guest: produce the return value, trap,
or continue to a next state. Guest states are encoded as strings. -/
inductive GStep where
  | done (out : String)
  | trap (msg : String)
  | next (s : String)

/-- A loadable wasm component on disk: whether instantiation (ABI check plus
entry-point lookup) succeeds, the initial guest state for a given input, and
the guest's step function. -/
structure Artifact where
  instantiable : Bool
  entry : String → String
  prog : String → GStep

/-- Result of one `Runtime::run_tool` call, tagged like the distinct failure
sources in `src/core/src/runtime.rs` (artifact load, instantiation, trap,
fuel exhaustion). -/
inductive ExecResult where
  | success (out : String)
  | artifactNotFound (path : String)
  | instantiationFailed
  | trap (msg : String)
  | outOfFuel

/-- Rendering of the error as `anyhow` displays it (the gateway interpolates
this into the `ai-exec-failed` status). wasmtime renders fuel exhaustion as
"all fuel consumed by WebAssembly". -/
def ExecResult.message : ExecResult → String
  | .success out => out
  | .artifactNotFound p => "failed to read from " ++ p
  | .instantiationFailed => "instantiation failed"
  | .trap m => "wasm trap: " ++ m
  | .outOfFuel => "all fuel consumed by WebAssembly"

/-- Modelled from the spec: wasmtime's fuel metering (the engine itself is an
external library; `runtime.rs` only enables `consume_fuel` and calls
`set_fuel`). The quota decreases by one unit per guest step and the engine
interrupts the guest the instant it reaches zero; the guest cannot prevent
the cutoff. -/
def runFuel (prog : String → GStep) : String → Nat → ExecResult
  | _, 0 => .outOfFuel
  | s, f + 1 =>
    match prog s with
    | .done out => .success out
    | .trap m => .trap m
    | .next s2 => runFuel prog s2 f

/-- Engine configuration set up in `Runtime::new` (`runtime.rs` lines 35-43). -/
structure EngineConfig where
  wasm_component_model : Bool
  async_support : Bool
  consume_fuel : Bool

/-- The runtime holds only the engine (shared, immutable across requests);
every per-invocation resource (linker, WASI context, table, store) is created
inside `run_tool` and dropped at its end. -/
structure Runtime where
  engine : EngineConfig

/-- Model of `Runtime::new`: component model, async support and fuel metering
all enabled. -/
def Runtime.new : Runtime :=
  ⟨⟨true, true, true⟩⟩

/-- The fuel quota installed per invocation (`store.set_fuel(10_000_000)`,
`runtime.rs` line 63), installed before the component is instantiated or run. -/
def fuelBudget : Nat := 10000000

/-- Model of `Runtime::run_tool` (`runtime.rs` lines 46-75). `fs` models the
filesystem as seen by `Component::from_file` (`none` = unreadable or not a
valid component). A fresh linker, WASI context, resource table and store are
built per invocation (locals in the source — nothing of them survives the
call or is read from a previous call); the fuel budget is installed on the
fresh store before instantiation; then the `run` entry point is invoked on
the input. -/
def Runtime.run_tool (rt : Runtime) (fs : String → Option Artifact)
    (binary_path : String) (input_data : String) : ExecResult :=
  match fs binary_path with
  | none => .artifactNotFound binary_path
  | some component =>
    if component.instantiable then
      runFuel component.prog (component.entry input_data) fuelBudget
    else
      .instantiationFailed
  
/-- Sequential serving of execution requests against the shared engine: the
engine is borrowed immutably by every call (`&self` in the source), so the
state threads through unchanged and each invocation gets a fresh context. -/
def serve (rt : Runtime) (fs : String → Option Artifact) :
    List (String × String) → List ExecResult
  | [] => []
  | (p, i) :: rest => Runtime.run_tool rt fs p i :: serve rt fs rest

/-- The echo guest (`src/tools/src/lib.rs`): `Guest::run` for `MyTool`. -/
def MyTool.run (input : String) : String :=
  "(Guest) IronClaw processed: " ++ squote ++ input ++ squote

/-- Per-request allow-list entry in the inbound request
(`ToolDef` in `src/gateway/src/api.rs`). -/
structure ToolDef where
  name : String
  description : String
  parameters : Json

/-- Inbound request body (`RunRequest` in `src/gateway/src/api.rs`): the
`tools` field is the per-request allow-list of capabilities. -/
structure RunRequest where
  tenant_id : String
  task : String
  tools : List ToolDef

/-- Outbound response body (`RunResponse` in `src/gateway/src/api.rs`). -/
structure RunResponse where
  job_id : String
  status : String
deriving DecidableEq

/-- One tool description as shipped to the external decision service
(the `ChatCompletionTool` built in `llm.rs` lines 59-72: name, description
and the JSON parameter schema, passed through unchanged). -/
structure FunctionDef where
  name : String
  description : String
  parameters : Json

/-- The request shipped to the external decision service: model, task text and
the tool descriptions (`llm.rs` lines 59-85). -/
structure OracleRequest where
  model : String
  task : String
  tools : List FunctionDef

/-- The assistant message of one reply choice: optional text content and
optional tool-call list. Each tool call is carried as the JSON it serializes
to (`serde_json::to_value(first_call)` in `llm.rs` line 95). -/
structure ChatMsg where
  content : Option String
  tool_calls : Option (List Json)

/-- One choice of the decision service's reply. -/
structure ChatChoice where
  message : ChatMsg

/-- The decision service's reply: a list of choices. -/
structure OracleReply where
  choices : List ChatChoice

/-- Outcome of `Brain::plan` as observed by the caller: a Rust `Ok` with an
optional proposal, a Rust `Err`, or a Rust panic escaping the function. -/
inductive PlanResult where
  | ok (proposal : Option Json)
  | err (msg : String)
  | panicked

/-- The Brain's per-process state that matters to planning: the model name
(`llm.rs` lines 17-20, 27-28). -/
structure Brain where
  model : String

/-- The tool list the Brain puts into the oracle request (`llm.rs` lines
59-72): name, description and parameter schema of each record it was given,
in order. -/
def Brain.planTools (tools : List ToolRecord) : List FunctionDef :=
  tools.map fun t => ⟨t.name, t.description, t.parameters⟩

/-- The request `Brain::plan` constructs (`llm.rs` lines 74-85): the task as
the sole user message plus the converted tool list. -/
def Brain.planRequest (model task : String) (tools : List ToolRecord) : OracleRequest :=
  ⟨model, task, Brain.planTools tools⟩

/-- Model of how `Brain::plan` interprets the service's reply (`llm.rs` lines
87-101). `reply` is the outcome of `client.chat().create(request)` (`Err` =
transport failure or undeserializable response). `&response.choices[0]` is an
unchecked index: on an empty choices list it panics (Rust index out of
bounds), modelled by `PlanResult.panicked`. Otherwise: the first tool call of
the first choice if present, else no proposal. -/
def Brain.planInterpret (reply : Except String OracleReply) : PlanResult :=
  match reply with
  | .error e => .err e
  | .ok response =>
    match response.choices with
    | [] => .panicked
    | choice :: _ =>
      match choice.message.tool_calls with
      | some (first_call :: _) => .ok (some first_call)
      | _ => .ok none

/-- `tool_call_json["function"]["name"].as_str().unwrap_or("unknown")`
(`main.rs` line 110). -/
def functionName (tool_call_json : Json) : String :=
  (Json.asStr (Json.get (Json.get tool_call_json ("function")) ("name"))).getD ("unknown")

/-- `tool_call_json["function"]["arguments"].as_str().unwrap_or("{}")`
(`main.rs` line 111). -/
def argumentsStr (tool_call_json : Json) : String :=
  (Json.asStr (Json.get (Json.get tool_call_json ("function")) ("arguments"))).getD ("\x7b\x7d")

/-- Argument extraction (`main.rs` lines 119-121): parse the arguments string
(`unwrap_or_default()` falls back to `Null`), then read a string `input`
field (`unwrap_or("")` falls back to the empty string). There is no failure
path: every malformed payload degrades to `""`. -/
def extractInput (arguments_str : String) : String :=
  (Json.asStr (Json.get ((parseJson arguments_str).getD Json.default) ("input"))).getD ("")

/-- The chat-only status text (`main.rs` line 158). -/
def noToolMsg : String :=
  "I understood your request, but I don" ++ squote ++ "t need to run any tools to answer it."

/-- The hallucination status text (`main.rs` line 149). -/
def hallucinationMsg (name : String) : String :=
  "Error: Tool " ++ squote ++ name ++ squote ++ " not found"

/-- Mapping of the engine result to the response (`main.rs` lines 127-144). -/
def execResponse : ExecResult → RunResponse
  | .success output => ⟨"ai-exec-success", output⟩
  | e => ⟨"ai-exec-failed", "Runtime Error: " ++ e.message⟩

/-- Outcome of one request at the handler boundary: a response was produced,
or a panic unwound out of the handler (in which case the request gets no
response at all). -/
inductive HandlerOutcome where
  | response (r : RunResponse)
  | panicked
deriving DecidableEq

/-- Model of the orchestrator handler `submit_run` (`main.rs` lines 92-169),
instrumented with the list of execution-engine invocations `(binary_path,
input)` it performs. The handler asks the Brain to plan with `state.registry`
— the full catalog — as the tool list (`main.rs` line 102); `payload.tools`
is not consulted. On a proposal it resolves the name in the registry,
extracts the input, runs the sandbox and maps the outcome; a missing name
yields the hallucination response; no proposal yields the chat-only
response; a Brain error yields the internal-error response. -/
def submit_run (brain : Brain) (registry : List ToolRecord) (rt : Runtime)
    (fs : String → Option Artifact) (oracle : OracleRequest → Except String OracleReply)
    (payload : RunRequest) : HandlerOutcome × List (String × String) :=
  match Brain.planInterpret (oracle (Brain.planRequest brain.model payload.task registry)) with
  | .panicked => (.panicked, [])
  | .err _ => (.response ⟨"err-brain", "Internal AI Error"⟩, [])
  | .ok none => (.response ⟨"chat-only", noToolMsg⟩, [])
  | .ok (some tool_call_json) =>
    match registry.find? (fun t => t.name == functionName tool_call_json) with
    | some tool_record =>
      (.response (execResponse (Runtime.run_tool rt fs tool_record.binary_path
          (extractInput (argumentsStr tool_call_json)))),
        [(tool_record.binary_path, extractInput (argumentsStr tool_call_json))])
    | none =>
      (.response ⟨"err-hallucination", hallucinationMsg (functionName tool_call_json)⟩, [])

/-- JSON parameter schema of the echo capability (single string `input`). -/
def echoParams : Json :=
  .obj [("type", .str "object"),
        ("properties", .obj [("input", .obj [("type", .str "string")])])]

/-- The echo capability's catalog record. -/
def echoRecord : ToolRecord :=
  ⟨"ironclaw_echo", "Echoes the input back", "tools/echo.wasm", "run", echoParams⟩

/-- The echo guest as a sandbox artifact: instantiates, and returns
`MyTool.run input` after one step of execution. -/
def echoArtifact : Artifact :=
  ⟨true, fun s => s, fun s => .done (MyTool.run s)⟩

/-- An artifact that never terminates: every step continues. -/
def loopArtifact : Artifact :=
  ⟨true, fun s => s, fun s => .next s⟩

/-- A filesystem holding the echo component at the echo record's path. -/
def echoFs : String → Option Artifact :=
  fun p => if p == "tools/echo.wasm" then some echoArtifact else none

/-- A filesystem holding the infinite-loop component. -/
def loopFs : String → Option Artifact :=
  fun p => if p == "tools/loop.wasm" then some loopArtifact else none

/-- A Brain configured with the default model (`OPENAI_MODEL` unset). -/
def brainG : Brain := ⟨"gpt-4o"⟩

/-- A concrete inbound request whose per-request allow-list is empty. -/
def payloadG : RunRequest := ⟨"tenant-1", "Please echo Hello", []⟩

/-- A tool call proposing the echo capability on input `Hello`, as the JSON it
serializes to. -/
def echoCall : Json :=
  .obj [("id", .str "call-1"), ("type", .str "function"),
        ("function", .obj [("name", .str "ironclaw_echo"),
                           ("arguments", .str ("\x7b\"input\":\"Hello\"\x7d"))])]

/-- A tool call proposing the echo capability with an unparseable arguments
payload. -/
def badArgsCall : Json :=
  .obj [("id", .str "call-2"), ("type", .str "function"),
        ("function", .obj [("name", .str "ironclaw_echo"),
                           ("arguments", .str "not json")])]

/-- A tool call proposing a capability that is in no catalog. -/
def ghostCall : Json :=
  .obj [("id", .str "call-3"), ("type", .str "function"),
        ("function", .obj [("name", .str "ghost_tool"),
                           ("arguments", .str ("\x7b\x7d"))])]

/-- A tool call whose `function.name` field is missing altogether. -/
def noNameCall : Json :=
  .obj [("id", .str "call-4"), ("type", .str "function"),
        ("function", .obj [("arguments", .str ("\x7b\x7d"))])]

/-- A reply whose only choice carries the given tool calls. -/
def replyWith (calls : List Json) : OracleReply :=
  ⟨[⟨⟨none, some calls⟩⟩]⟩

/-- A reply whose only choice is plain text: no tool call. -/
def replyChat : OracleReply :=
  ⟨[⟨⟨some "Happy to help.", none⟩⟩]⟩

/-- An oracle that always proposes the echo call. -/
def oracleEcho : OracleRequest → Except String OracleReply :=
  fun _ => .ok (replyWith [echoCall])

/-- An oracle that proposes the echo call with unparseable arguments. -/
def oracleBadArgs : OracleRequest → Except String OracleReply :=
  fun _ => .ok (replyWith [badArgsCall])

/-- An oracle that proposes a tool absent from every catalog. -/
def oracleGhost : OracleRequest → Except String OracleReply :=
  fun _ => .ok (replyWith [ghostCall])

/-- An oracle that proposes a call with no `function.name` field. -/
def oracleNoName : OracleRequest → Except String OracleReply :=
  fun _ => .ok (replyWith [noNameCall])

/-- An oracle that never selects a capability. -/
def oracleNone : OracleRequest → Except String OracleReply :=
  fun _ => .ok replyChat

/-- An oracle that answers with an empty choices list. -/
def oracleEmptyChoices : OracleRequest → Except String OracleReply :=
  fun _ => .ok ⟨[]⟩

/-- A probe oracle that reveals which tool list it was shown: it proposes the
echo call exactly when the request carries at least one tool description. -/
def oracleProbe : OracleRequest → Except String OracleReply :=
  fun req => if req.tools.isEmpty then .ok replyChat else .ok (replyWith [echoCall])

/-- Duplicate-name registry records for the catalog-uniqueness analysis. -/
def dupA : ToolRecord := ⟨"dup", "first copy", "tools/a.wasm", "run", .null⟩

/-- Second record sharing the name `dup`. -/
def dupB : ToolRecord := ⟨"dup", "second copy", "tools/b.wasm", "run", .null⟩

/-- Iterate the guest step function: the state after `n` steps, or `none` if
the guest halted (returned or trapped) strictly before `n` steps. -/
def stepN (prog : String → GStep) : Nat → String → Option String
  | 0, s => some s
  | n + 1, s =>
    match prog s with
    | .next s2 => stepN prog n s2
    | _ => none

/-- A guest computation that consumes unbounded compute: after any number of
steps it is still running. -/
def Diverges (prog : String → GStep) (s : String) : Prop :=
  ∀ n, stepN prog n s ≠ none

/-- `serve` is the pointwise image of `run_tool`: the engine threads through
the request sequence unchanged, each invocation owning a fresh context. -/
theorem serve_eq_map (rt : Runtime) (fs : String → Option Artifact)
    (reqs : List (String × String)) :
    serve rt fs reqs = reqs.map (fun q => Runtime.run_tool rt fs q.1 q.2) := by
  induction reqs with
  | nil => rfl
  | cons q rest ih =>
    cases q with
    | mk p i => simp [serve, ih]

/-- A diverging guest exhausts any finite fuel quota. -/
theorem runFuel_of_diverges :
    ∀ (f : Nat) (prog : String → GStep) (s : String),
      Diverges prog s → runFuel prog s f = .outOfFuel := by
  intro f
  induction f with
  | zero => intro prog s _; rfl
  | succ k ih =>
    intro prog s h
    have h1 := h 1
    cases hp : prog s with
    | done out => exact absurd (by simp [stepN, hp]) h1
    | trap m => exact absurd (by simp [stepN, hp]) h1
    | next s2 =>
      have hdiv : Diverges prog s2 := by
        intro n hn
        exact h (n + 1) (by simp [stepN, hp, hn])
      simp only [runFuel, hp]
      exact ih prog s2 hdiv

/-- The loop guest is still running after any number of steps. -/
theorem loop_stepN (n : Nat) (s : String) : stepN loopArtifact.prog n s = some s := by
  induction n with
  | zero => rfl
  | succ k ih => simpa [stepN, loopArtifact] using ih

/-- C1: the claim says the orchestrator calls the planner with the request's
per-request `tools` allow-list. The code (`main.rs` line 102) passes
`state.registry` — the full catalog — and never reads `payload.tools`. At a
request whose allow-list is empty against a one-record catalog, the oracle
request still carries the catalog's record, and a probe oracle that proposes
a tool only when shown a non-empty tool list drives the pipeline into
executing it. -/
theorem c1_allowlist_ignored :
    (Brain.planRequest brainG.model payloadG.task [echoRecord]).tools
        = Brain.planTools [echoRecord]
    ∧ Brain.planTools [echoRecord]
        ≠ payloadG.tools.map (fun d => FunctionDef.mk d.name d.description d.parameters)
    ∧ submit_run brainG [echoRecord] Runtime.new echoFs oracleProbe payloadG
        = (.response ⟨"ai-exec-success", MyTool.run "Hello"⟩, [("tools/echo.wasm", "Hello")]) :=
  ⟨rfl, fun h => List.noConfusion h, rfl⟩

/-- C2 counterexample: with the echo capability resolved and an unparseable
arguments payload (`"not json"`), the orchestrator does not produce an
argument-error response; it invokes the ExecutionEngine with the empty
string (the invocation list is non-empty) and reports plain execution
success. -/
theorem c2_counterexample :
    submit_run brainG [echoRecord] Runtime.new echoFs oracleBadArgs payloadG
      = (.response ⟨"ai-exec-success", MyTool.run ""⟩, [("tools/echo.wasm", "")])
    ∧ ([("tools/echo.wasm", "")] : List (String × String)) ≠ [] :=
  ⟨rfl, fun h => List.noConfusion h⟩

/-- C2 amended: for every proposal whose resolved capability's arguments
payload yields no string `input` field (unparseable JSON included — the
parse failure falls back to `Null`), the orchestrator substitutes the empty
string as the invocation input and invokes the ExecutionEngine with it;
there is no distinct argument-error response kind. -/
theorem c2_amended (brain : Brain) (registry : List ToolRecord) (rt : Runtime)
    (fs : String → Option Artifact) (oracle : OracleRequest → Except String OracleReply)
    (payload : RunRequest) (j : Json) (tr : ToolRecord)
    (h1 : Brain.planInterpret (oracle (Brain.planRequest brain.model payload.task registry))
        = .ok (some j))
    (h2 : registry.find? (fun t => t.name == functionName j) = some tr)
    (h3 : Json.asStr (Json.get ((parseJson (argumentsStr j)).getD Json.default) ("input"))
        = none) :
    submit_run brain registry rt fs oracle payload
      = (.response (execResponse (Runtime.run_tool rt fs tr.binary_path "")),
         [(tr.binary_path, "")]) := by
  have hin : extractInput (argumentsStr j) = "" := by
    unfold extractInput
    rw [h3]
    rfl
  unfold submit_run
  rw [h1]
  dsimp only
  rw [h2]
  dsimp only
  rw [hin]

/-- C2 amended, witness: the echo capability with arguments `"not json"`
resolves, extraction yields no input field, and the engine is invoked with
the empty string. -/
theorem c2_amended_witness :
    submit_run brainG [echoRecord] Runtime.new echoFs oracleBadArgs payloadG
      = (.response (execResponse (Runtime.run_tool Runtime.new echoFs "tools/echo.wasm" "")),
         [("tools/echo.wasm", "")]) :=
  c2_amended brainG [echoRecord] Runtime.new echoFs oracleBadArgs payloadG badArgsCall
    echoRecord rfl rfl rfl

/-- C3: the claim says the orchestrator emits exactly one terminal response
for every oracle reply shape, an empty choices list included, with no
per-request error escaping as a panic. The code (`llm.rs` line 89) evaluates
`&response.choices[0]` unchecked: on a reply with an empty choices list the
index panics, the panic unwinds out of `Brain::plan` and `submit_run`, and
the request gets no response at all. -/
theorem c3_empty_choices :
    Brain.planInterpret (.ok ⟨[]⟩) = .panicked
    ∧ submit_run brainG [echoRecord] Runtime.new echoFs oracleEmptyChoices payloadG
        = (.panicked, []) :=
  ⟨rfl, rfl⟩

/-- C4: every sandbox invocation runs under the finite fuel budget installed
on the fresh store before the guest is instantiated or run; a guest that
consumes unbounded compute (still running after any number of steps) always
ends in the engine-enforced budget-exhausted failure, never hangs the
caller. -/
theorem c4_budget (rt : Runtime) (fs : String → Option Artifact) (path : String)
    (a : Artifact) (input : String)
    (h1 : fs path = some a) (h2 : a.instantiable = true)
    (h3 : Diverges a.prog (a.entry input)) :
    Runtime.run_tool rt fs path input = .outOfFuel := by
  unfold Runtime.run_tool
  rw [h1]
  dsimp only
  rw [if_pos h2]
  exact runFuel_of_diverges fuelBudget a.prog (a.entry input) h3

/-- C4 witness: the infinite-loop artifact under the default budget
terminates with the budget-exhausted failure. -/
theorem c4_budget_witness :
    Runtime.run_tool Runtime.new loopFs ("tools/loop.wasm") ("spin") = .outOfFuel :=
  c4_budget Runtime.new loopFs ("tools/loop.wasm") loopArtifact ("spin") rfl rfl
    (fun n hn => Option.noConfusion ((loop_stepN n (loopArtifact.entry ("spin"))).symm.trans hn))

/-- C5: a proposal naming a capability absent from the catalog is classified
with the dedicated hallucination response kind, the status carries the
unresolved name, and the ExecutionEngine is never invoked for the request. -/
theorem c5_hallucination (brain : Brain) (registry : List ToolRecord) (rt : Runtime)
    (fs : String → Option Artifact) (oracle : OracleRequest → Except String OracleReply)
    (payload : RunRequest) (j : Json)
    (h1 : Brain.planInterpret (oracle (Brain.planRequest brain.model payload.task registry))
        = .ok (some j))
    (h2 : registry.find? (fun t => t.name == functionName j) = none) :
    submit_run brain registry rt fs oracle payload
      = (.response ⟨"err-hallucination", hallucinationMsg (functionName j)⟩, [])
    ∧ (∃ pre post, hallucinationMsg (functionName j) = pre ++ functionName j ++ post)
    ∧ "err-hallucination" ≠ "err-brain" := by
  refine ⟨?_, ⟨"Error: Tool " ++ squote, squote ++ " not found", ?_⟩, by decide⟩
  · unfold submit_run
    rw [h1]
    dsimp only
    rw [h2]
  · simp [hallucinationMsg, String.append_assoc]

/-- C5 witness: the ghost-tool scenario — the oracle proposes `ghost_tool`
against the echo-only catalog; the response is the hallucination kind, its
status contains the name, and no engine invocation happens. -/
theorem c5_hallucination_witness :
    submit_run brainG [echoRecord] Runtime.new echoFs oracleGhost payloadG
      = (.response ⟨"err-hallucination", hallucinationMsg ("ghost_tool")⟩, [])
    ∧ (∃ pre post, hallucinationMsg ("ghost_tool") = pre ++ "ghost_tool" ++ post)
    ∧ "err-hallucination" ≠ "err-brain" :=
  c5_hallucination brainG [echoRecord] Runtime.new echoFs oracleGhost payloadG ghostCall rfl rfl

/-- C6: executions are hermetic — the outcome of an invocation is a function
of the shared immutable engine, the filesystem, the artifact path and the
input alone: after any history of prior invocations (failures included) the
same invocation yields the same `ExecResult`, because each `run_tool` call
builds its linker, WASI context, table and store afresh and the engine
threads through untouched. In particular two equal invocations anywhere in a
served sequence produce the same outcome classification. -/
theorem c6_hermetic (rt : Runtime) (fs : String → Option Artifact)
    (hist : List (String × String)) (p i : String) :
    (serve rt fs (hist ++ [(p, i)])).getLast? = some (Runtime.run_tool rt fs p i) := by
  rw [serve_eq_map, List.map_append]
  simp [List.getLast?_concat]

/-- C7 counterexample: `Registry::load` performs no duplicate-name check — a
source that parses to two records both named `dup` loads successfully, and
the loaded catalog's name list is not duplicate-free. -/
theorem c7_counterexample :
    Registry.load (some "duplicate registry source") (fun _ => some [dupA, dupB]) (fun _ => true)
      = .ok ([dupA, dupB], [])
    ∧ ¬ (([dupA, dupB].map ToolRecord.name).Nodup) :=
  ⟨rfl, by simp [dupA, dupB]⟩

/-- C7 amended: a successful load returns the parsed record list verbatim
(plus a warning per missing binary); no uniqueness validation is applied, so
the catalog's names are unique exactly when the source's are. -/
theorem c7_amended (content : String) (parse : String → Option (List ToolRecord))
    (exists_at : String → Bool) (tools : List ToolRecord)
    (h : parse content = some tools) :
    Registry.load (some content) parse exists_at
      = .ok (tools,
          (tools.filter (fun t => !(exists_at t.binary_path))).map missingBinaryWarning) := by
  unfold Registry.load
  dsimp only
  rw [h]

/-- C7 amended, witness: the duplicate-name source loads successfully with the
duplicates preserved. -/
theorem c7_amended_witness :
    Registry.load (some "duplicate registry source") (fun _ => some [dupA, dupB]) (fun _ => true)
      = .ok ([dupA, dupB], []) :=
  c7_amended "duplicate registry source" (fun _ => some [dupA, dupB]) (fun _ => true)
    [dupA, dupB] rfl

/-- C8: the end-to-end echo scenario — the catalog holds the echo capability,
the oracle proposes it with arguments `input = "Hello"`: the guest's defined
echo behavior is `(Guest) IronClaw processed: 'input'` for every input, the
engine run returns it for `Hello`, the response status equals that output
and the job kind is the success kind. -/
theorem c8_echo_scenario :
    (∀ s, MyTool.run s = "(Guest) IronClaw processed: " ++ squote ++ s ++ squote)
    ∧ Runtime.run_tool Runtime.new echoFs "tools/echo.wasm" "Hello" = .success (MyTool.run "Hello")
    ∧ submit_run brainG [echoRecord] Runtime.new echoFs oracleEcho payloadG
        = (.response ⟨"ai-exec-success", MyTool.run "Hello"⟩, [("tools/echo.wasm", "Hello")]) :=
  ⟨fun _ => rfl, rfl, rfl⟩

/-- C9: whenever the planner selects no capability, the response is the
chat-only "no action taken" kind — not an error — and the ExecutionEngine is
never invoked for the request. -/
theorem c9_no_tool (brain : Brain) (registry : List ToolRecord) (rt : Runtime)
    (fs : String → Option Artifact) (oracle : OracleRequest → Except String OracleReply)
    (payload : RunRequest)
    (h : Brain.planInterpret (oracle (Brain.planRequest brain.model payload.task registry))
        = .ok none) :
    submit_run brain registry rt fs oracle payload
      = (.response ⟨"chat-only", noToolMsg⟩, []) := by
  unfold submit_run
  rw [h]

/-- C9 witness: an oracle that answers with plain text and no tool call yields
the chat-only response and an empty engine-invocation list. -/
theorem c9_no_tool_witness :
    submit_run brainG [echoRecord] Runtime.new echoFs oracleNone payloadG
      = (.response ⟨"chat-only", noToolMsg⟩, []) :=
  c9_no_tool brainG [echoRecord] Runtime.new echoFs oracleNone payloadG rfl

/-- C10: a proposal whose `function.name` field is missing or not a string is
given the substitute name `unknown` and proceeds to catalog resolution; when
no capability named `unknown` is registered, the caller sees it as a
hallucination of tool `unknown` — not as a malformed-response or oracle
error — and the ExecutionEngine is never invoked. -/
theorem c10_unknown (brain : Brain) (registry : List ToolRecord) (rt : Runtime)
    (fs : String → Option Artifact) (oracle : OracleRequest → Except String OracleReply)
    (payload : RunRequest) (j : Json)
    (h1 : Brain.planInterpret (oracle (Brain.planRequest brain.model payload.task registry))
        = .ok (some j))
    (h2 : Json.asStr (Json.get (Json.get j ("function")) ("name")) = none)
    (h3 : registry.find? (fun t => t.name == "unknown") = none) :
    functionName j = "unknown"
    ∧ submit_run brain registry rt fs oracle payload
        = (.response ⟨"err-hallucination", hallucinationMsg ("unknown")⟩, []) := by
  have hfn : functionName j = "unknown" := by
    unfold functionName
    rw [h2]
    rfl
  refine ⟨hfn, ?_⟩
  unfold submit_run
  rw [h1]
  dsimp only
  simp only [hfn]
  rw [h3]

/-- C10 witness: a proposal carrying only an `arguments` field resolves to
name `unknown` and is reported as a hallucination of `unknown` against the
echo-only catalog, with no engine invocation. -/
theorem c10_unknown_witness :
    functionName noNameCall = "unknown"
    ∧ submit_run brainG [echoRecord] Runtime.new echoFs oracleNoName payloadG
        = (.response ⟨"err-hallucination", hallucinationMsg ("unknown")⟩, []) :=
  c10_unknown brainG [echoRecord] Runtime.new echoFs oracleNoName payloadG noNameCall rfl rfl rfl
